import Mathlib

/-!
Shallow embedding of `src/contracts/programs/onusone-p2p/src/lib.rs`, the
on-chain staking program of onusone-p2p, together with theorems checking the
natural-language specification against it.

Modelling conventions:
* `Pubkey` (32-byte Solana key) is abstracted as `Nat`; no claim depends on
  its internal structure.
* Rust `u64` fields are modelled as `Nat` (the program stores them verbatim
  and performs no arithmetic on them), `i64` timestamps as `Int`.
* Anchor's account machinery is made explicit: the PDA seeds
  `[b"stake", user.key()]` become the key-derivation function `stake_pda`,
  and the set of stake accounts becomes an association list keyed by PDA.
* `Clock::get()?.unix_timestamp` is modelled by passing `now` explicitly;
  `ctx.bumps.*` by passing `bump` explicitly.
* Entry points return `Except StakeError _`, mirroring anchor's `Result<()>`;
  the error taxonomy is the specification's (§7).
-/

/-- Error taxonomy from the specification (§7). The source itself declares no
error type and never returns an error from its two entry points. -/
inductive StakeError where
  | AlreadyInitialized
  | Unauthorized
  | InvalidPolicy
  | EmergencyHalt
  | BelowMinimum
  | AboveMaximum
  | DailyLimitExceeded
  | TotalLimitExceeded
  | NotFound
  | ClockSkew
  deriving DecidableEq

/-- Solana public key, abstracted. -/
abbrev Pubkey := Nat

/-- `ProgramState` account (lib.rs lines 115-129): global configuration and
aggregate counters, one per deployment. -/
structure ProgramState where
  authority : Pubkey
  onu_mint : Pubkey
  treasury : Pubkey
  decay_rate : Nat
  min_stake : Nat
  max_stake : Nat
  daily_user_limit : Nat
  total_user_limit : Nat
  total_staked : Nat
  total_rewards_paid : Nat
  emergency_controls_active : Bool
  bump : Nat
  deriving DecidableEq

/-- `StakeAccount` account (lib.rs lines 135-144): one stake record. -/
structure StakeAccount where
  user : Pubkey
  content_id : String
  content_type : String
  amount : Nat
  staked_at : Int
  is_active : Bool
  bump : Nat
  deriving DecidableEq

/-- A program-derived address: the seed list of the account, here a tag
string together with the user key. -/
abbrev PdaKey := String × Pubkey

/-- PDA of a user's stake account, from the `StakeTokens` accounts context
(lib.rs line 104): `seeds = [b"stake", user.key().as_ref()]`. The seeds
mention only the user, not the content id. -/
def stake_pda (user : Pubkey) : PdaKey := ("stake", user)

/-- Persistent state the program can reach: the singleton `ProgramState`
plus the collection of stake accounts indexed by their PDA. -/
structure LedgerState where
  program_state : ProgramState
  stake_accounts : List (PdaKey × StakeAccount)
  deriving DecidableEq

/-- Look up the stake account stored at a PDA. -/
def find_stake (l : List (PdaKey × StakeAccount)) (k : PdaKey) :
    Option StakeAccount :=
  match l with
  | [] => none
  | (k', v) :: rest => if k' = k then some v else find_stake rest k

/-- Anchor `init_if_needed` followed by full reassignment of every field:
replace the record stored at `k` if present, else append a fresh one. -/
def upsert (l : List (PdaKey × StakeAccount)) (k : PdaKey) (v : StakeAccount) :
    List (PdaKey × StakeAccount) :=
  match l with
  | [] => [(k, v)]
  | (k', v') :: rest =>
      if k' = k then (k, v) :: rest else (k', v') :: upsert rest k v

/-- Sum of the principal (`amount`) of all active stake records — the
quantity the specification says `total_staked` must equal (§3). -/
def active_principal_sum (l : List (PdaKey × StakeAccount)) : Nat :=
  (l.map fun p => if p.2.is_active then p.2.amount else 0).sum

/-- The `initialize` entry point (lib.rs lines 13-37), named
`initialize_policy` after the host-agnostic API table of the specification
(§6). It writes every `ProgramState` field: policy numbers verbatim as
passed, aggregates zeroed, emergency flag cleared. `_initial_supply` is
accepted and never used, exactly as in the source. The body has no failure
path (`Ok(())` unconditionally). -/
def initialize_policy (authority onu_mint treasury : Pubkey) (bump : Nat)
    (_initial_supply decay_rate min_stake max_stake daily_user_limit
      total_user_limit : Nat) : Except StakeError ProgramState :=
  .ok
    { authority := authority
      onu_mint := onu_mint
      treasury := treasury
      decay_rate := decay_rate
      min_stake := min_stake
      max_stake := max_stake
      daily_user_limit := daily_user_limit
      total_user_limit := total_user_limit
      total_staked := 0
      total_rewards_paid := 0
      emergency_controls_active := false
      bump := bump }

/-- The `stake_tokens` entry point (lib.rs lines 39-55). It writes the stake
account at `stake_pda user` — every field reassigned from the arguments and
the clock — and touches nothing else; in particular it never reads or writes
`ProgramState`, whose account is absent from the `StakeTokens` context
(lib.rs lines 98-113). The body has no failure path. -/
def stake_tokens (s : LedgerState) (user : Pubkey) (amount : Nat)
    (content_id content_type : String) (now : Int) (bump : Nat) :
    Except StakeError LedgerState :=
  .ok
    { s with
      stake_accounts :=
        upsert s.stake_accounts (stake_pda user)
          { user := user
            content_id := content_id
            content_type := content_type
            amount := amount
            staked_at := now
            is_active := true
            bump := bump } }

/-- Modelled from the spec: the repository contains no decay computation at
all (spec §1: "No decay computation ... implemented"); this is the
DecayEngine of §4.2, `effective_value = principal * decay_factor`, with
`decay_factor = max(0, 1 - decay_rate_bps/10000 * elapsed_units)` rendered
in integer arithmetic, and `ClockSkew` when `now < staked_at`. -/
def effective_value (principal : Nat) (staked_at now : Int)
    (decay_rate : Nat) : Except StakeError Nat :=
  if now < staked_at then .error .ClockSkew
  else
    .ok (principal *
      (10000 - min (decay_rate * (now - staked_at).toNat) 10000) / 10000)

/-- A concrete policy record used by the concrete-run theorems below:
decay 1%/day, stake bounds [10, 1000], daily cap 5000, lifetime cap 50000
(the concrete scenario of spec §8). -/
def demo_ps : ProgramState :=
  { authority := 1
    onu_mint := 2
    treasury := 3
    decay_rate := 100
    min_stake := 10
    max_stake := 1000
    daily_user_limit := 5000
    total_user_limit := 50000
    total_staked := 0
    total_rewards_paid := 0
    emergency_controls_active := false
    bump := 255 }

theorem find_upsert_self (l : List (PdaKey × StakeAccount)) (k : PdaKey)
    (v : StakeAccount) : find_stake (upsert l k v) k = some v := by
  induction l with
  | nil => simp [upsert, find_stake]
  | cons p rest ih =>
      obtain ⟨k', v'⟩ := p
      by_cases h : k' = k <;> simp [upsert, find_stake, h, ih]

theorem find_upsert_ne (l : List (PdaKey × StakeAccount)) (k k' : PdaKey)
    (v : StakeAccount) (h : k' ≠ k) :
    find_stake (upsert l k v) k' = find_stake l k' := by
  induction l with
  | nil => simp [upsert, find_stake, Ne.symm h]
  | cons p rest ih =>
      obtain ⟨k₀, v₀⟩ := p
      by_cases h0 : k₀ = k
      · subst h0
        simp [upsert, find_stake, Ne.symm h]
      · simp [upsert, find_stake, h0, ih]

/-- C6: for every valid input, immediately after `initialize_policy`
completes, the resulting state has `total_staked = 0` and
`total_rewards_paid = 0` (lib.rs lines 31-32). -/
theorem initialize_zeroes_aggregates (a o t : Pubkey)
    (b s dr ms xs dl tl : Nat) (ps : ProgramState)
    (h : initialize_policy a o t b s dr ms xs dl tl = .ok ps) :
    ps.total_staked = 0 ∧ ps.total_rewards_paid = 0 := by
  cases h; exact ⟨rfl, rfl⟩

theorem initialize_zeroes_aggregates_witness :
    ProgramState.total_staked demo_ps = 0 ∧
      ProgramState.total_rewards_paid demo_ps = 0 :=
  initialize_zeroes_aggregates 1 2 3 255 1000000 100 10 1000 5000 50000
    demo_ps rfl

/-- C7: `initialize` performs no range validation: every combination of the
numeric parameters — including `min_stake > max_stake` — is stored in the
resulting `ProgramState` exactly as passed, and the call succeeds
(lib.rs lines 26-36 assign unconditionally and return `Ok(())`). -/
theorem initialize_no_validation (a o t : Pubkey)
    (b s dr ms xs dl tl : Nat) :
    initialize_policy a o t b s dr ms xs dl tl =
      .ok
        { authority := a
          onu_mint := o
          treasury := t
          decay_rate := dr
          min_stake := ms
          max_stake := xs
          daily_user_limit := dl
          total_user_limit := tl
          total_staked := 0
          total_rewards_paid := 0
          emergency_controls_active := false
          bump := b } := rfl

/-- C10: the result of `initialize` is independent of `_initial_supply`:
two runs differing only in that argument produce identical states
(lib.rs line 15 — the parameter is never read). -/
theorem initialize_ignores_initial_supply (a o t : Pubkey)
    (b s₁ s₂ dr ms xs dl tl : Nat) :
    initialize_policy a o t b s₁ dr ms xs dl tl =
      initialize_policy a o t b s₂ dr ms xs dl tl := rfl

/-- Claim C1 fails on the code: starting from the initialized state, one
successful stake of 100 leaves `total_staked = 0` while the sum of active
records' principal is 100; `stake_tokens` applies no delta to the aggregate
(the `StakeTokens` context does not even contain the `ProgramState`
account). -/
theorem total_staked_not_updated_on_stake :
    ((initialize_policy 1 2 3 255 1000000 100 10 1000 5000 50000).bind
        (fun ps =>
          (stake_tokens { program_state := ps, stake_accounts := [] }
              7 100 "c" "post" 0 254).map
            (fun s => (s.program_state.total_staked,
              active_principal_sum s.stake_accounts))))
      = .ok (0, 100) ∧ (0 : Nat) ≠ 100 :=
  ⟨rfl, by decide⟩

/-- Claim C2 fails on the code: with `emergency_controls_active = true` the
stake still succeeds and writes a record — `stake_tokens` never reads the
flag, so no `EmergencyHalt` is ever signalled. -/
theorem stake_succeeds_despite_emergency :
    (stake_tokens
        { program_state := { demo_ps with emergency_controls_active := true },
          stake_accounts := [] } 7 100 "c" "post" 0 254).map
        (fun s => (s.program_state.emergency_controls_active,
          find_stake s.stake_accounts (stake_pda 7)))
      = .ok (true, some
          { user := 7, content_id := "c", content_type := "post",
            amount := 100, staked_at := 0, is_active := true, bump := 254 }) ∧
    stake_tokens
        { program_state := { demo_ps with emergency_controls_active := true },
          stake_accounts := [] } 7 100 "c" "post" 0 254
      ≠ .error .EmergencyHalt :=
  ⟨rfl, by simp [stake_tokens]⟩

/-- Claim C3 fails on the code: with `min_stake = 10` a stake of 5 is not
rejected with `BelowMinimum`; it succeeds and creates a record —
`stake_tokens` never compares `amount` with the policy. -/
theorem stake_below_minimum_succeeds :
    (stake_tokens { program_state := demo_ps, stake_accounts := [] }
        7 5 "c" "post" 0 254).map
        (fun s => (s.program_state.min_stake,
          find_stake s.stake_accounts (stake_pda 7)))
      = .ok (10, some
          { user := 7, content_id := "c", content_type := "post",
            amount := 5, staked_at := 0, is_active := true, bump := 254 }) ∧
    (5 : Nat) < 10 :=
  ⟨rfl, by decide⟩

/-- Claim C4 as stated is false: two stakes by user 7 on the distinct
content ids "c1" and "c2" leave a single stake record (holding only the
second stake), because the PDA seeds mention the user alone. -/
theorem stake_single_record_counterexample :
    ((stake_tokens { program_state := demo_ps, stake_accounts := [] }
          7 100 "c1" "post" 0 254).bind
        (fun s₁ => (stake_tokens s₁ 7 200 "c2" "post" 5 254).map
          (fun s₂ => s₂.stake_accounts)))
      = .ok [(("stake", 7),
          { user := 7, content_id := "c2", content_type := "post",
            amount := 200, staked_at := 5, is_active := true, bump := 254 })] ∧
    "c1" ≠ "c2" :=
  ⟨rfl, by decide⟩

/-- Claim C4, amended: stake records are keyed by the user alone (PDA seeds
`[b"stake", user]`), so two stakes by the same user on different content
identifiers address the same record — the second overwrites the first — and
no key other than the user's is touched. -/
theorem stake_records_keyed_by_user (s s₁ s₂ : LedgerState) (u : Pubkey)
    (a₁ a₂ : Nat) (c₁ ct₁ c₂ ct₂ : String) (t₁ t₂ : Int) (b₁ b₂ : Nat)
    (h₁ : stake_tokens s u a₁ c₁ ct₁ t₁ b₁ = .ok s₁)
    (h₂ : stake_tokens s₁ u a₂ c₂ ct₂ t₂ b₂ = .ok s₂) :
    find_stake s₂.stake_accounts (stake_pda u)
      = some { user := u, content_id := c₂, content_type := ct₂,
                amount := a₂, staked_at := t₂, is_active := true, bump := b₂ } ∧
    ∀ k, k ≠ stake_pda u →
      find_stake s₂.stake_accounts k = find_stake s.stake_accounts k := by
  simp only [stake_tokens] at h₁ h₂
  injection h₁ with h₁
  subst h₁
  injection h₂ with h₂
  subst h₂
  refine ⟨find_upsert_self _ _ _, fun k hk => ?_⟩
  exact (find_upsert_ne _ _ _ _ hk).trans (find_upsert_ne _ _ _ _ hk)

theorem stake_records_keyed_by_user_witness :
    find_stake [(("stake", 11),
        { user := 11, content_id := "c2", content_type := "text", amount := 400,
          staked_at := 9, is_active := true, bump := 251 })] (stake_pda 11)
      = some { user := 11, content_id := "c2", content_type := "text",
                amount := 400, staked_at := 9, is_active := true, bump := 251 } ∧
    ∀ k, k ≠ stake_pda 11 →
      find_stake [(("stake", 11),
          { user := 11, content_id := "c2", content_type := "text",
            amount := 400, staked_at := 9, is_active := true, bump := 251 })] k
        = find_stake [] k :=
  stake_records_keyed_by_user
    { program_state := demo_ps, stake_accounts := [] }
    { program_state := demo_ps,
      stake_accounts := [(("stake", 11),
        { user := 11, content_id := "c1", content_type := "text", amount := 300,
          staked_at := 2, is_active := true, bump := 251 })] }
    { program_state := demo_ps,
      stake_accounts := [(("stake", 11),
        { user := 11, content_id := "c2", content_type := "text", amount := 400,
          staked_at := 9, is_active := true, bump := 251 })] }
    11 300 400 "c1" "text" "c2" "text" 2 9 251 251 rfl rfl

/-- Claim C5: a repeated stake for an existing record key unconditionally
overwrites the record with a fresh one carrying the new `amount` and the
current time as `staked_at` — independent of the previous record `r`, so
nothing is added to the old principal and no decay is settled
(lib.rs lines 45-52 reassign every field). -/
theorem restake_overwrites (s s' : LedgerState) (u : Pubkey)
    (r : StakeAccount) (a : Nat) (c ct : String) (t : Int) (b : Nat)
    (hexist : find_stake s.stake_accounts (stake_pda u) = some r)
    (h : stake_tokens s u a c ct t b = .ok s') :
    find_stake s'.stake_accounts (stake_pda u)
      = some { user := u, content_id := c, content_type := ct, amount := a,
                staked_at := t, is_active := true, bump := b } := by
  simp only [stake_tokens] at h
  injection h with h
  subst h
  exact find_upsert_self _ _ _

theorem restake_overwrites_witness :
    find_stake [(("stake", 7),
        { user := 7, content_id := "c2", content_type := "post", amount := 200,
          staked_at := 5, is_active := true, bump := 254 })] (stake_pda 7)
      = some { user := 7, content_id := "c2", content_type := "post",
                amount := 200, staked_at := 5, is_active := true, bump := 254 } :=
  restake_overwrites
    { program_state := demo_ps,
      stake_accounts := [(("stake", 7),
        { user := 7, content_id := "c1", content_type := "post", amount := 100,
          staked_at := 0, is_active := true, bump := 254 })] }
    { program_state := demo_ps,
      stake_accounts := [(("stake", 7),
        { user := 7, content_id := "c2", content_type := "post", amount := 200,
          staked_at := 5, is_active := true, bump := 254 })] }
    7
    { user := 7, content_id := "c1", content_type := "post", amount := 100,
      staked_at := 0, is_active := true, bump := 254 }
    200 "c2" "post" 5 254 rfl rfl

/-- Claim C9: `stake_tokens` is frame-preserving — the global `ProgramState`
(every field, in particular `total_staked`, `total_rewards_paid` and
`emergency_controls_active`) is unchanged, and the only stake account it
writes is the caller's, at `stake_pda user`. -/
theorem stake_tokens_frame (s s' : LedgerState) (u : Pubkey) (a : Nat)
    (c ct : String) (t : Int) (b : Nat)
    (h : stake_tokens s u a c ct t b = .ok s') :
    s'.program_state = s.program_state ∧
    ∀ k, k ≠ stake_pda u →
      find_stake s'.stake_accounts k = find_stake s.stake_accounts k := by
  simp only [stake_tokens] at h
  injection h with h
  subst h
  exact ⟨rfl, fun k hk => find_upsert_ne _ _ _ _ hk⟩

theorem stake_tokens_frame_witness :
    demo_ps = demo_ps ∧
    ∀ k, k ≠ stake_pda 9 →
      find_stake [(("stake", 9),
          { user := 9, content_id := "cx", content_type := "vid", amount := 50,
            staked_at := 3, is_active := true, bump := 250 })] k
        = find_stake [] k :=
  stake_tokens_frame
    { program_state := demo_ps, stake_accounts := [] }
    { program_state := demo_ps,
      stake_accounts := [(("stake", 9),
        { user := 9, content_id := "cx", content_type := "vid", amount := 50,
          staked_at := 3, is_active := true, bump := 250 })] }
    9 50 "cx" "vid" 3 250 rfl

theorem ceil_div_mul_ge (a b : Nat) (hb : 0 < b) :
    a ≤ b * ((a + b - 1) / b) := by
  have h : a ≤ b • (a ⌈/⌉ b) := le_smul_ceilDiv hb
  rwa [smul_eq_mul, Nat.ceilDiv_eq_add_pred_div] at h

/-- Claim C8: for fixed principal and `decay_rate > 0`, `effective_value` is
non-increasing as `now` increases, its result is never negative, and it is 0
for every `now` at or beyond the full-decay point
`staked_at + ceil(10000 / decay_rate)`. -/
theorem effective_value_decay_props (principal : Nat) (staked_at n₁ n₂ : Int)
    (decay_rate v₁ v₂ : Nat) (hdr : 0 < decay_rate)
    (h₁ : staked_at ≤ n₁) (h₁₂ : n₁ ≤ n₂)
    (he₁ : effective_value principal staked_at n₁ decay_rate = .ok v₁)
    (he₂ : effective_value principal staked_at n₂ decay_rate = .ok v₂) :
    v₂ ≤ v₁ ∧ 0 ≤ v₂ ∧
      (staked_at + ((10000 + decay_rate - 1) / decay_rate : Nat) ≤ n₂ →
        v₂ = 0) := by
  have hn₁ : ¬ n₁ < staked_at := not_lt.2 h₁
  have hn₂ : ¬ n₂ < staked_at := not_lt.2 (h₁.trans h₁₂)
  simp only [effective_value, if_neg hn₁] at he₁
  simp only [effective_value, if_neg hn₂] at he₂
  injection he₁ with he₁
  subst he₁
  injection he₂ with he₂
  subst he₂
  refine ⟨?_, Nat.zero_le _, ?_⟩
  · apply Nat.div_le_div_right
    apply Nat.mul_le_mul_left
    apply Nat.sub_le_sub_left
    apply min_le_min _ le_rfl
    apply Nat.mul_le_mul_left
    exact Int.toNat_le_toNat (sub_le_sub_right h₁₂ staked_at)
  · intro h
    have hnn : (0 : Int) ≤ n₂ - staked_at := sub_nonneg.2 (h₁.trans h₁₂)
    have hc : ((10000 + decay_rate - 1) / decay_rate : Nat)
        ≤ (n₂ - staked_at).toNat := by
      rw [Int.le_toNat hnn]
      linarith
    have h10 : 10000 ≤ decay_rate * (n₂ - staked_at).toNat :=
      le_trans (ceil_div_mul_ge 10000 decay_rate hdr)
        (Nat.mul_le_mul_left _ hc)
    rw [min_eq_right h10, Nat.sub_self, Nat.mul_zero, Nat.zero_div]

theorem effective_value_decay_props_witness :
    (0 : Nat) < 100 ∧ (0 : Int) ≤ 5 ∧ (5 : Int) ≤ 200 ∧
      ((0 : Nat) ≤ 95 ∧ (0 : Nat) ≤ 0 ∧
        ((0 : Int) + ((10000 + 100 - 1) / 100 : Nat) ≤ 200 → (0 : Nat) = 0)) :=
  ⟨by decide, by decide, by decide,
    effective_value_decay_props 100 0 5 200 100 95 0 (by decide) (by decide)
      (by decide) rfl rfl⟩
